import Mathlib

/-!
Verification of the mLRS transmitter link core (src/mLRS/CommonTx/mlrs-tx.cpp)
against its natural-language specification.

The C++ globals and member functions are shallowly embedded as pure Lean
functions over explicit state records.  Machine integers are modelled as `Nat`
(with `% 256` or `% 65536` where 8/16-bit overflow matters) or as `Int` for
signed quantities (RSSI).  Volatile words written by the ISRs are modelled as
inputs sampled at the point where the main loop reads them.
-/

namespace MLRS

/-- CONNECT_STATE_ENUM (mlrs-tx.cpp lines 242-246). -/
inductive ConnectState
  | listen
  | sync
  | connected
deriving DecidableEq

/-- LINK_STATE_ENUM (mlrs-tx.cpp lines 248-255). -/
inductive LinkState
  | idle
  | transmit
  | transmitWait
  | receive
  | receiveWait
  | receiveDone
deriving DecidableEq

/-- RX_STATUS_ENUM (mlrs-tx.cpp lines 257-261): RX_STATUS_NONE = 0,
RX_STATUS_INVALID = 1, RX_STATUS_VALID = 2.  The C code compares these
values with `>`, so we keep the numeric encoding. -/
inductive RxStatus
  | none
  | invalid
  | valid
deriving DecidableEq

/-- Numeric value of a RX_STATUS_ENUM constant, used for the `>` comparisons
in the C source. -/
def RxStatus.toNat : RxStatus → Nat
  | .none => 0
  | .invalid => 1
  | .valid => 2

/-- Modelled from the spec: the SX12xx IRQ bit values live in the sx-drivers
headers, which are not under src/.  The spec (§4.1) only requires a bitfield
with distinct TX_DONE / RX_DONE / TIMEOUT causes; we fix distinct bits. -/
def SX12xx_IRQ_TX_DONE : Nat := 1

/-- Modelled from the spec: RX_DONE cause bit (see SX12xx_IRQ_TX_DONE). -/
def SX12xx_IRQ_RX_DONE : Nat := 2

/-- Modelled from the spec: TX/RX timeout cause bit (see SX12xx_IRQ_TX_DONE). -/
def SX12xx_IRQ_TIMEOUT : Nat := 16384

/-- ANTENNA_1 selector constant (value from the common headers; only
distinctness from ANTENNA_2 matters here). -/
def ANTENNA_1 : Nat := 0

/-- ANTENNA_2 selector constant. -/
def ANTENNA_2 : Nat := 1

/-- SX_DIO_EXTI_IRQHandler (mlrs-tx.cpp lines 214-225), as a function from the
modem cause mask returned by `sx.GetAndClearIrqStatus(SX12xx_IRQ_ALL)` and the
first two receive-buffer bytes to the value left in the volatile `irq_status`
slot.  `sx.ReadBuffer(0, (uint8_t*)&sync_word, 2)` reads the two bytes
little-endian into a uint16. -/
def SX_DIO_EXTI_IRQHandler (modemIrq : Nat) (buf0 buf1 : Nat)
    (frameSyncWord : Nat) : Nat :=
  let irq_status := modemIrq
  if irq_status &&& SX12xx_IRQ_RX_DONE ≠ 0 then
    let sync_word := buf0 + 256 * buf1
    if sync_word ≠ frameSyncWord then 0 else irq_status
  else
    irq_status

/-- CHANNEL_ORDER enum value (from the setup headers; the claims only use
equality between the three constants). -/
def CHANNEL_ORDER_AETR : Nat := 0

/-- CHANNEL_ORDER_TAER enum value. -/
def CHANNEL_ORDER_TAER : Nat := 1

/-- CHANNEL_ORDER_ETAR enum value. -/
def CHANNEL_ORDER_ETAR : Nat := 2

/-- State of the ChannelOrder class (mlrs-tx.cpp lines 97-138):
`channel_order` and the four entries of `channel_map`. -/
structure ChannelOrderState where
  channel_order : Nat
  map0 : Nat
  map1 : Nat
  map2 : Nat
  map3 : Nat
deriving DecidableEq

/-- ChannelOrder constructor (lines 100-104): channel_order = UINT8_MAX and
channel_map = identity. -/
def ChannelOrder.ctor : ChannelOrderState :=
  { channel_order := 255, map0 := 0, map1 := 1, map2 := 2, map3 := 3 }

/-- ChannelOrder::Set (lines 106-125).  Note the AETR and TAER cases leave
channel_map untouched ("nothing to do" / "TODO"). -/
def ChannelOrder.Set (s : ChannelOrderState) (new_channel_order : Nat) :
    ChannelOrderState :=
  if new_channel_order = s.channel_order then s
  else
    let s := { s with channel_order := new_channel_order }
    if s.channel_order = CHANNEL_ORDER_AETR then s
    else if s.channel_order = CHANNEL_ORDER_TAER then s
    else if s.channel_order = CHANNEL_ORDER_ETAR then
      { s with map0 := 2, map1 := 0, map2 := 1, map3 := 3 }
    else s

/-- The first four entries of tRcData.ch, the only ones ChannelOrder touches. -/
structure RcChannels where
  ch0 : Nat
  ch1 : Nat
  ch2 : Nat
  ch3 : Nat
deriving DecidableEq

/-- Index into the saved copy `ch[4]` of the first four channels, as in
ChannelOrder::Apply. -/
def RcChannels.get : RcChannels → Nat → Nat
  | rc, 0 => rc.ch0
  | rc, 1 => rc.ch1
  | rc, 2 => rc.ch2
  | rc, 3 => rc.ch3
  | _, _ => 0

/-- ChannelOrder::Apply (lines 127-133): rc->ch[n] = ch[channel_map[n]]. -/
def ChannelOrder.Apply (s : ChannelOrderState) (rc : RcChannels) : RcChannels :=
  { ch0 := rc.get s.map0
    ch1 := rc.get s.map1
    ch2 := rc.get s.map2
    ch3 := rc.get s.map3 }

/-- The pure ETAR permutation, applied once to a channel vector (the map the
ETAR case of ChannelOrder::Set writes, applied by ChannelOrder::Apply). -/
def etarApplied (rc : RcChannels) : RcChannels :=
  { ch0 := rc.ch2, ch1 := rc.ch0, ch2 := rc.ch1, ch3 := rc.ch3 }

/-- The AETR → ETAR → AETR set/apply sequence of the claim, run on the actual
ChannelOrder code starting from the constructed state. -/
def channelOrderSequence (rc : RcChannels) : RcChannels :=
  let s1 := ChannelOrder.Set ChannelOrder.ctor CHANNEL_ORDER_AETR
  let rc1 := ChannelOrder.Apply s1 rc
  let s2 := ChannelOrder.Set s1 CHANNEL_ORDER_ETAR
  let rc2 := ChannelOrder.Apply s2 rc1
  let s3 := ChannelOrder.Set s2 CHANNEL_ORDER_AETR
  ChannelOrder.Apply s3 rc2

/-- The antenna election of the pre-transmit block with diversity
(mlrs-tx.cpp lines 816-839), given both rx statuses and
stats.last_rx_rssi1/2 (int8_t, so Int here).  Only reached when a frame was
received on at least one antenna. -/
def electAntenna (rx1 rx2 : RxStatus) (rssi1 rssi2 : Int) : Nat :=
  if rx1 = rx2 then
    if rssi1 > rssi2 then ANTENNA_1 else ANTENNA_2
  else if rx1 = RxStatus.valid then ANTENNA_1
  else if rx2 = RxStatus.valid then ANTENNA_2
  else
    if rssi1 > rssi2 then ANTENNA_1 else ANTENNA_2

/-- frame_received in the diversity pre-transmit block (line 803):
(link_rx1_status > RX_STATUS_NONE) || (link_rx2_status > RX_STATUS_NONE). -/
def frameReceivedDiv (rx1 rx2 : RxStatus) : Bool :=
  rx1.toNat > (RxStatus.none).toNat || rx2.toNat > (RxStatus.none).toNat

/-- valid_frame_received in the diversity pre-transmit block (line 804). -/
def validFrameReceivedDiv (rx1 rx2 : RxStatus) : Bool :=
  rx1.toNat > (RxStatus.invalid).toNat || rx2.toNat > (RxStatus.invalid).toNat

/-- The diversity receive-election step of the pre-transmit block: `some a`
when a frame was received and antenna `a` was elected (handle_receive(a) is
then called), `none` when no frame was received (handle_receive_none). -/
def preTransmitElect (rx1 rx2 : RxStatus) (rssi1 rssi2 : Int) : Option Nat :=
  if frameReceivedDiv rx1 rx2 then some (electAntenna rx1 rx2 rssi1 rssi2)
  else none

/-! ## Connection FSM (mlrs-tx.cpp lines 583-586, 650-656, 850-874) -/

/-- The connection-FSM variables of main_main: connect_state, connect_sync_cnt
(uint8_t) and connect_tmo_cnt (uint16_t). -/
structure ConnSt where
  connect_state : ConnectState
  connect_sync_cnt : Nat
  connect_tmo_cnt : Nat
deriving DecidableEq

/-- The connection-FSM part of the pre-transmit block (mlrs-tx.cpp lines
850-874), with K = CONNECT_SYNC_CNT and TMO = CONNECT_TMO_SYSTICKS (both
constants live in the common headers, not under src/, so they are parameters
here).  connect_sync_cnt is a uint8_t, hence the % 256. -/
def connectionPreTransmit (K TMO : Nat) (valid_frame_received : Bool)
    (s : ConnSt) : ConnSt :=
  let s :=
    if valid_frame_received then
      let s :=
        match s.connect_state with
        | .listen => { s with connect_state := ConnectState.sync, connect_sync_cnt := 0 }
        | .sync =>
            let cnt := (s.connect_sync_cnt + 1) % 256
            { s with connect_sync_cnt := cnt,
                     connect_state := if K ≤ cnt then ConnectState.connected
                                      else ConnectState.sync }
        | .connected => { s with connect_state := ConnectState.connected }
      { s with connect_tmo_cnt := TMO }
    else s
  let s :=
    if s.connect_state = ConnectState.connected ∧ s.connect_tmo_cnt = 0 then
      { s with connect_state := ConnectState.listen }
    else s
  if s.connect_state = ConnectState.connected ∧ valid_frame_received = false then
    { s with connect_sync_cnt := 0 }
  else s

/-- The connect_tmo_cnt down-count of the 1 ms SysTask block (mlrs-tx.cpp
lines 654-656). -/
def connectionSysTick (s : ConnSt) : ConnSt :=
  if s.connect_tmo_cnt ≠ 0 then { s with connect_tmo_cnt := s.connect_tmo_cnt - 1 }
  else s

/-! ## WhileTransmit deferred-task engine (mlrs-tx.cpp lines 505-568) -/

/-- WHILE_TASK_ENUM: WHILE_TASK_NONE. -/
def WHILE_TASK_NONE : Nat := 0

/-- WHILE_TASK_ENUM: WHILE_TASK_STORE_PARAMS = 0x0001. -/
def WHILE_TASK_STORE_PARAMS : Nat := 1

/-- The WhileTransmit members: tasks (uint8_t bitmask) and do_cnt (uint16_t). -/
structure WhileTransmitSt where
  tasks : Nat
  do_cnt : Nat
deriving DecidableEq

/-- WhileTransmit::Init (lines 527-531). -/
def WhileTransmit.Init : WhileTransmitSt :=
  { tasks := WHILE_TASK_NONE, do_cnt := 0 }

/-- WhileTransmit::Trigger (lines 534-537): postpone the action by few loops. -/
def WhileTransmit.Trigger (s : WhileTransmitSt) : WhileTransmitSt :=
  { s with do_cnt := 5 }

/-- WhileTransmit::SetTask (lines 551-554); tasks is a uint8_t. -/
def WhileTransmit.SetTask (s : WhileTransmitSt) (task : Nat) : WhileTransmitSt :=
  { s with tasks := (s.tasks ||| task) % 256 }

/-- WhileTransmit::handle_tasks (lines 557-568), returning the new state and
the list of tasks executed in this call (the dbg output is dropped).  The
early return after the STORE_PARAMS branch does just one task per cycle. -/
def WhileTransmit.handle_tasks (s : WhileTransmitSt) : WhileTransmitSt × List Nat :=
  if s.tasks &&& WHILE_TASK_STORE_PARAMS ≠ 0 then
    ({ s with tasks := s.tasks &&& (255 ^^^ WHILE_TASK_STORE_PARAMS) },
      [WHILE_TASK_STORE_PARAMS])
  else (s, [])

/-- WhileTransmit::Do (lines 540-548), returning the new state and the tasks
executed in this call. -/
def WhileTransmit.Do (s : WhileTransmitSt) : WhileTransmitSt × List Nat :=
  if s.do_cnt = 0 then (s, [])
  else
    let s := { s with do_cnt := s.do_cnt - 1 }
    if s.do_cnt ≠ 0 then (s, [])
    else if s.tasks = 0 then (s, [])
    else WhileTransmit.handle_tasks s

/-- n successive WhileTransmit::Do calls, concatenating the executed tasks. -/
def WhileTransmit.doN : Nat → WhileTransmitSt → WhileTransmitSt × List Nat
  | 0, s => (s, [])
  | n + 1, s =>
      let r1 := WhileTransmit.Do s
      let r2 := WhileTransmit.doN n r1.1
      (r2.1, r1.2 ++ r2.2)

/-! ## Link state machine of the main loop (mlrs-tx.cpp lines 701-794, 876-878) -/

/-- The main-loop link variables: link_state, the two per-antenna rx statuses,
stats.transmit_seq_no, the FHSS position and the WhileTransmit engine.
Modelled from the spec where the type is not under src/: tStats lives in
common.h, transmit_seq_no is an 8-bit counter (spec §3: seq_no mod a small
window); the FHSS state (curr_i, num) is from fhss.h (spec §4.2).  `halted`
records that one of the two dead-end LED loops (lines 751-758, 785-792) was
entered. -/
structure LinkSt where
  link_state : LinkState
  link_rx1_status : RxStatus
  link_rx2_status : RxStatus
  transmit_seq_no : Nat
  fhss_curr_i : Nat
  fhss_num : Nat
  whileTransmit : WhileTransmitSt
  halted : Bool
deriving DecidableEq

/-- Modelled from the spec: fhss.HopToNext (fhss.h is not under src/); spec
§4.2: hop_to_next() advances curr_i = (curr_i + 1) mod num. -/
def fhssHopToNext (s : LinkSt) : LinkSt :=
  { s with fhss_curr_i := (s.fhss_curr_i + 1) % s.fhss_num }

/-- do_transmit (mlrs-tx.cpp lines 452-459): stats.transmit_seq_no++ (8-bit)
and then process_transmit_frame.  The frame building and serial consumption
of process_transmit_frame act on different state and are modelled separately
by `process_transmit_frame` below. -/
def do_transmit (s : LinkSt) : LinkSt :=
  { s with transmit_seq_no := (s.transmit_seq_no + 1) % 256 }

/-- The switch(link_state) at the top of the SX handling (lines 701-725).
The Bool is true when the LINK_STATE_TRANSMIT branch ran, i.e. a frame was
handed to the modem via do_transmit.  TRANSMIT_WAIT and RECEIVE_WAIT have no
case and fall through unchanged; the TRANSMIT branch hops the FHSS, transmits,
clears both IRQ latches and triggers the WhileTransmit engine. -/
def sxSwitch (s : LinkSt) : LinkSt × Bool :=
  match s.link_state with
  | .transmit =>
      let s := fhssHopToNext s
      let s := do_transmit s
      (({ s with link_state := LinkState.transmitWait,
                 whileTransmit := WhileTransmit.Trigger s.whileTransmit }), true)
  | .receive => ({ s with link_state := LinkState.receiveWait }, false)
  | _ => (s, false)

/-- The IF_ANTENNA1 irq_status handling (lines 727-760).  `irq_in` is the
value of the volatile irq_status word at the point the main loop reads it;
`rxres1` is the status do_receive(ANTENNA_1) would return for the frame in
the buffer (check_rx_frame and GetPacketStatus live outside src/, so the
result is an input).  The local zeroing of irq_status between the branches is
modelled by threading the pair (irq, state). -/
def irqHandleAnt1 (irq_in : Nat) (rxres1 : RxStatus) (s : LinkSt) : LinkSt :=
  if irq_in = 0 then s
  else
    let p :=
      if s.link_state = LinkState.transmitWait then
        if irq_in &&& SX12xx_IRQ_TX_DONE ≠ 0 then
          ((0 : Nat), { s with link_state := LinkState.receive })
        else (irq_in, s)
      else if s.link_state = LinkState.receiveWait then
        if irq_in &&& SX12xx_IRQ_RX_DONE ≠ 0 then
          ((0 : Nat), { s with link_rx1_status := rxres1 })
        else (irq_in, s)
      else (irq_in, s)
    let p :=
      if p.1 &&& SX12xx_IRQ_TIMEOUT ≠ 0 then
        ((0 : Nat), { p.2 with link_state := LinkState.idle,
                               link_rx1_status := RxStatus.none,
                               link_rx2_status := RxStatus.none })
      else p
    let s := if p.1 &&& SX12xx_IRQ_RX_DONE ≠ 0 then { p.2 with halted := true } else p.2
    if p.1 &&& SX12xx_IRQ_TX_DONE ≠ 0 then { s with halted := true } else s

/-- The IF_ANTENNA2 irq2_status handling (lines 761-794), symmetric to
antenna 1 but writing link_rx2_status. -/
def irqHandleAnt2 (irq_in : Nat) (rxres2 : RxStatus) (s : LinkSt) : LinkSt :=
  if irq_in = 0 then s
  else
    let p :=
      if s.link_state = LinkState.transmitWait then
        if irq_in &&& SX12xx_IRQ_TX_DONE ≠ 0 then
          ((0 : Nat), { s with link_state := LinkState.receive })
        else (irq_in, s)
      else if s.link_state = LinkState.receiveWait then
        if irq_in &&& SX12xx_IRQ_RX_DONE ≠ 0 then
          ((0 : Nat), { s with link_rx2_status := rxres2 })
        else (irq_in, s)
      else (irq_in, s)
    let p :=
      if p.1 &&& SX12xx_IRQ_TIMEOUT ≠ 0 then
        ((0 : Nat), { p.2 with link_state := LinkState.idle,
                               link_rx1_status := RxStatus.none,
                               link_rx2_status := RxStatus.none })
      else p
    let s := if p.1 &&& SX12xx_IRQ_RX_DONE ≠ 0 then { p.2 with halted := true } else p.2
    if p.1 &&& SX12xx_IRQ_TX_DONE ≠ 0 then { s with halted := true } else s

/-- The link-state part of the doPreTransmit block (lines 876-878):
link_state := TRANSMIT and both rx statuses cleared to NONE. -/
def preTransmitLink (s : LinkSt) : LinkSt :=
  { s with link_state := LinkState.transmit,
           link_rx1_status := RxStatus.none,
           link_rx2_status := RxStatus.none }

/-- One main-loop iteration restricted to the link variables: the
switch(link_state), the two IRQ handlings (with the volatile words sampled as
inputs), and, when doPreTransmit fired, the link part of the pre-transmit
block.  The Bool is true when this iteration handed a frame to the modem. -/
def linkIterStep (irq irq2 : Nat) (rxres1 rxres2 : RxStatus) (doPre : Bool)
    (s : LinkSt) : LinkSt × Bool :=
  let p := sxSwitch s
  let s := irqHandleAnt1 irq rxres1 p.1
  let s := irqHandleAnt2 irq2 rxres2 s
  let s := if doPre then preTransmitLink s else s
  (s, p.2)

/-! ## transmit_frame_type handling (mlrs-tx.cpp lines 267-308, 317-373, 634, 931-934) -/

/-- TRANSMIT_FRAME_TYPE_ENUM (lines 269-274). -/
def TRANSMIT_FRAME_TYPE_NORMAL : Nat := 0

/-- TRANSMIT_FRAME_TYPE_ENUM: CMD_GET_RX_SETUPDATA. -/
def TRANSMIT_FRAME_TYPE_CMD_GET_RX_SETUPDATA : Nat := 1

/-- TRANSMIT_FRAME_TYPE_ENUM: CMD_SET_RX_PARAMS. -/
def TRANSMIT_FRAME_TYPE_CMD_SET_RX_PARAMS : Nat := 2

/-- TRANSMIT_FRAME_TYPE_ENUM: CMD_STORE_RX_PARAMS. -/
def TRANSMIT_FRAME_TYPE_CMD_STORE_RX_PARAMS : Nat := 3

/-- Modelled from the spec: the FRAME_CMD_* command byte values live in the
frame headers (not under src/); only their distinctness is used. -/
def FRAME_CMD_RX_SETUPDATA : Nat := 2

/-- Modelled from the spec: FRAME_CMD_RX_ACK (see FRAME_CMD_RX_SETUPDATA). -/
def FRAME_CMD_RX_ACK : Nat := 4

/-- Modelled from the spec: FRAME_TYPE_RX, the status frame_type value of a
normal (non-command) receiver frame (frame headers not under src/). -/
def FRAME_TYPE_RX : Nat := 1

/-- process_received_cmd_rx_frame (lines 279-292) restricted to its effect on
transmit_frame_type: cleared to NORMAL exactly on FRAME_CMD_RX_SETUPDATA and
FRAME_CMD_RX_ACK (the unpacking of the setup data affects other state). -/
def process_received_cmd_rx_frame (payload0 : Nat) (transmit_frame_type : Nat) :
    Nat :=
  if payload0 = FRAME_CMD_RX_SETUPDATA then TRANSMIT_FRAME_TYPE_NORMAL
  else if payload0 = FRAME_CMD_RX_ACK then TRANSMIT_FRAME_TYPE_NORMAL
  else transmit_frame_type

/-- Every write site of the global transmit_frame_type in mlrs-tx.cpp:
the boot initialization (line 634), process_received_cmd_rx_frame (lines 285,
289), the SET_RX_PARAMS latch at the top of process_transmit_frame (lines
319-322), and the MBRIDGE_CMD_PARAM_STORE command (line 932). -/
inductive FrameTypeWrite
  | bootInit
  | recvCmdFrame (payload0 : Nat)
  | transmitLatch (setup_rx_param_changed : Bool)
  | mbridgeParamStore
deriving DecidableEq

/-- The effect of each transmit_frame_type write site on the slot. -/
def frameTypeStep : FrameTypeWrite → Nat → Nat
  | .bootInit, _ => TRANSMIT_FRAME_TYPE_CMD_GET_RX_SETUPDATA
  | .recvCmdFrame p0, t => process_received_cmd_rx_frame p0 t
  | .transmitLatch changed, t =>
      if changed ∧ t = TRANSMIT_FRAME_TYPE_NORMAL then
        TRANSMIT_FRAME_TYPE_CMD_SET_RX_PARAMS
      else t
  | .mbridgeParamStore, _ => TRANSMIT_FRAME_TYPE_CMD_STORE_RX_PARAMS

/-- Result of process_transmit_frame: the updated transmit_frame_type and
setup_rx_param_changed slots, the payload buffer and payload_len globals, how
many bytes were consumed from the serial/MAVLink stream, whether
mavlink.flush() was called, and whether the frame was packed with
pack_tx_cmd_frame (true) or pack_tx_frame (false). -/
structure TransmitFrameResult where
  transmit_frame_type : Nat
  setup_rx_param_changed : Bool
  payload : List Nat
  payload_len : Nat
  consumed : Nat
  flushed : Bool
  packedCmd : Bool
deriving DecidableEq

/-- process_transmit_frame (mlrs-tx.cpp lines 317-373).  plen_max is
FRAME_TX_PAYLOAD_LEN (a config constant outside src/); serialportSome models
`serialport != nullptr`; conn is connected(); avail is the byte stream the
serial port / MAVLink parser would deliver (the for loop reads one byte per
iteration and breaks when none is available, so it consumes
min plen_max avail.length bytes); prevPayload/prevLen are the previous values
of the payload/payload_len globals, kept when the NORMAL branch is skipped.
The SendFrame call and the frame_stats assembly do not touch this state. -/
def process_transmit_frame (plen_max : Nat) (serialportSome : Bool)
    (conn : Bool) (avail : List Nat) (prevPayload : List Nat) (prevLen : Nat)
    (setup_rx_param_changed : Bool) (transmit_frame_type : Nat) :
    TransmitFrameResult :=
  let q :=
    if setup_rx_param_changed ∧ transmit_frame_type = TRANSMIT_FRAME_TYPE_NORMAL
    then (false, TRANSMIT_FRAME_TYPE_CMD_SET_RX_PARAMS)
    else (setup_rx_param_changed, transmit_frame_type)
  let changed := q.1
  let t := q.2
  if t = TRANSMIT_FRAME_TYPE_NORMAL then
    if conn then
      let n := if serialportSome then min plen_max avail.length else 0
      { transmit_frame_type := t, setup_rx_param_changed := changed,
        payload := avail.take n ++ List.replicate (plen_max - n) 0,
        payload_len := n, consumed := n, flushed := false, packedCmd := false }
    else
      { transmit_frame_type := t, setup_rx_param_changed := changed,
        payload := List.replicate plen_max 0,
        payload_len := 0, consumed := 0, flushed := serialportSome,
        packedCmd := false }
  else
    { transmit_frame_type := t, setup_rx_param_changed := changed,
      payload := prevPayload, payload_len := prevLen, consumed := 0,
      flushed := false, packedCmd := true }

/-! ## Receive-side handling (mlrs-tx.cpp lines 376-449) -/

/-- Modelled from the spec: rssi_i8_from_u7 lives in common_types.h (not
under src/); the spec (§3) carries RSSI as u7 on the wire and stores it as
i8, modelled as negation.  No claim depends on the exact mapping. -/
def rssi_i8_from_u7 (rssi_u7 : Nat) : Int :=
  -(rssi_u7 : Int)

/-- The status byte extension of a received frame (spec §3; the tRxFrame
layout lives in the frame headers outside src/). -/
structure RxFrameStatus where
  seq_no : Nat
  ack : Nat
  antenna : Nat
  transmit_antenna : Nat
  rssi_u7 : Nat
  LQ : Nat
  LQ_serial_data : Nat
  frame_type : Nat
  payload_len : Nat
deriving DecidableEq

/-- A received frame: status extension plus payload buffer. -/
structure RxFrame where
  status : RxFrameStatus
  payload : List Nat
deriving DecidableEq

/-- The receive-side fields of the global stats object written by
process_received_frame / handle_receive; bytes_received and
fresh_serial_data_received are the accumulators behind .Add / .Inc. -/
structure Stats where
  received_antenna : Nat
  received_transmit_antenna : Nat
  received_rssi : Int
  received_LQ : Nat
  received_LQ_serial_data : Nat
  received_seq_no_last : Nat
  received_ack_last : Nat
  last_rx_antenna : Nat
  bytes_received : Nat
  fresh_serial_data_received : Nat
deriving DecidableEq

/-- Result of process_received_frame: updated stats, updated
transmit_frame_type and the bytes written to the serial port (or MAVLink
handler; the two sinks are not distinguished here). -/
structure ReceiveOutcome where
  stats : Stats
  transmit_frame_type : Nat
  serialOut : List Nat
deriving DecidableEq

/-- process_received_frame (mlrs-tx.cpp lines 376-406). -/
def process_received_frame (serialportSome : Bool) (do_payload : Bool)
    (frame : RxFrame) (st : Stats) (transmit_frame_type : Nat) :
    ReceiveOutcome :=
  let st := { st with
    received_antenna := frame.status.antenna,
    received_transmit_antenna := frame.status.transmit_antenna,
    received_rssi := rssi_i8_from_u7 frame.status.rssi_u7,
    received_LQ := frame.status.LQ,
    received_LQ_serial_data := frame.status.LQ_serial_data }
  if ¬do_payload then ⟨st, transmit_frame_type, []⟩
  else if frame.status.frame_type ≠ FRAME_TYPE_RX then
    ⟨st, process_received_cmd_rx_frame (frame.payload.headD 0) transmit_frame_type, []⟩
  else
    let out := if serialportSome then frame.payload.take frame.status.payload_len
               else []
    ⟨{ st with
        bytes_received := st.bytes_received + frame.status.payload_len,
        fresh_serial_data_received := st.fresh_serial_data_received + 1 },
      transmit_frame_type, out⟩

/-- Result of handle_receive: updated stats, updated transmit_frame_type,
serial output, and whether txstats.doValidFrameReceived() resp.
txstats.doFrameReceived() were called. -/
structure HandleReceiveOutcome where
  stats : Stats
  transmit_frame_type : Nat
  serialOut : List Nat
  validFrameCounted : Bool
  frameCounted : Bool
deriving DecidableEq

/-- handle_receive (mlrs-tx.cpp lines 409-442).  The caller selects
link_rx1_status/rxFrame or link_rx2_status/rxFrame2 by antenna; here
rx_status and frame are those of the elected antenna. -/
def handle_receive (serialportSome : Bool) (antenna : Nat)
    (rx_status : RxStatus) (frame : RxFrame) (st : Stats) (t : Nat) :
    HandleReceiveOutcome :=
  if rx_status ≠ RxStatus.invalid then
    let r := process_received_frame serialportSome true frame st t
    let st2 := { r.stats with
      received_seq_no_last := frame.status.seq_no,
      received_ack_last := frame.status.ack }
    let st2 := { st2 with last_rx_antenna := antenna }
    ⟨st2, r.transmit_frame_type, r.serialOut, true, true⟩
  else
    let st2 := { st with received_seq_no_last := 255, received_ack_last := 0 }
    let st2 := { st2 with last_rx_antenna := antenna }
    ⟨st2, t, [], false, true⟩

/-- A concrete link state in LINK_STATE_TRANSMIT, used by witnesses. -/
def sampleTransmitSt : LinkSt :=
  { link_state := LinkState.transmit, link_rx1_status := RxStatus.none,
    link_rx2_status := RxStatus.none, transmit_seq_no := 5, fhss_curr_i := 3,
    fhss_num := 12, whileTransmit := WhileTransmit.Init, halted := false }

/-- A concrete link state in LINK_STATE_TRANSMIT_WAIT, used by witnesses and
counterexamples. -/
def sampleTransmitWaitSt : LinkSt :=
  { link_state := LinkState.transmitWait, link_rx1_status := RxStatus.none,
    link_rx2_status := RxStatus.none, transmit_seq_no := 0, fhss_curr_i := 0,
    fhss_num := 10, whileTransmit := WhileTransmit.Init, halted := false }

/-- A concrete link state in LINK_STATE_RECEIVE_WAIT, used by witnesses. -/
def sampleReceiveWaitSt : LinkSt :=
  { link_state := LinkState.receiveWait, link_rx1_status := RxStatus.invalid,
    link_rx2_status := RxStatus.valid, transmit_seq_no := 9, fhss_curr_i := 2,
    fhss_num := 10, whileTransmit := WhileTransmit.Init, halted := false }

/-- A concrete link state in LINK_STATE_IDLE, used by witnesses. -/
def sampleIdleSt : LinkSt :=
  { link_state := LinkState.idle, link_rx1_status := RxStatus.none,
    link_rx2_status := RxStatus.none, transmit_seq_no := 9, fhss_curr_i := 2,
    fhss_num := 10, whileTransmit := WhileTransmit.Init, halted := false }

end MLRS

namespace MLRS

/-- Helper: the antenna-1 IRQ handling never leaves LINK_STATE_IDLE (neither
wait branch applies, the timeout branch re-enters Idle, and the dead-end
branches only set halted). -/
theorem irqHandleAnt1_idle (irq : Nat) (r : RxStatus) (s : LinkSt)
    (h : s.link_state = LinkState.idle) :
    (irqHandleAnt1 irq r s).link_state = LinkState.idle := by
  by_cases h0 : irq = 0
  · simp [irqHandleAnt1, h0, h]
  · have hw : ¬ s.link_state = LinkState.transmitWait := by rw [h]; decide
    have hr : ¬ s.link_state = LinkState.receiveWait := by rw [h]; decide
    by_cases ht : irq &&& SX12xx_IRQ_TIMEOUT ≠ 0
    · simp [irqHandleAnt1, h0, hw, hr, ht]
    · by_cases hrx : irq &&& SX12xx_IRQ_RX_DONE ≠ 0 <;>
        by_cases htx : irq &&& SX12xx_IRQ_TX_DONE ≠ 0 <;>
        simp [irqHandleAnt1, h0, hw, hr, ht, hrx, htx, h]

/-- Helper: the antenna-2 IRQ handling never leaves LINK_STATE_IDLE. -/
theorem irqHandleAnt2_idle (irq : Nat) (r : RxStatus) (s : LinkSt)
    (h : s.link_state = LinkState.idle) :
    (irqHandleAnt2 irq r s).link_state = LinkState.idle := by
  by_cases h0 : irq = 0
  · simp [irqHandleAnt2, h0, h]
  · have hw : ¬ s.link_state = LinkState.transmitWait := by rw [h]; decide
    have hr : ¬ s.link_state = LinkState.receiveWait := by rw [h]; decide
    by_cases ht : irq &&& SX12xx_IRQ_TIMEOUT ≠ 0
    · simp [irqHandleAnt2, h0, hw, hr, ht]
    · by_cases hrx : irq &&& SX12xx_IRQ_RX_DONE ≠ 0 <;>
        by_cases htx : irq &&& SX12xx_IRQ_TX_DONE ≠ 0 <;>
        simp [irqHandleAnt2, h0, hw, hr, ht, hrx, htx, h]

/-- Claim C2: for every received frame (RX_DONE cause set) whose first two
buffer bytes, read as a little-endian uint16, differ from
Config.FrameSyncWord, the DIO ISR leaves irq_status = 0, so no RX_DONE cause
reaches the main loop. -/
theorem C2_isr_syncword_mismatch_discards (modemIrq buf0 buf1 sw : Nat)
    (hrx : modemIrq &&& SX12xx_IRQ_RX_DONE ≠ 0)
    (hne : buf0 + 256 * buf1 ≠ sw) :
    SX_DIO_EXTI_IRQHandler modemIrq buf0 buf1 sw = 0 := by
  simp [SX_DIO_EXTI_IRQHandler, hrx, hne]

/-- Witness for C2 at a concrete input: modem cause RX_DONE, buffer bytes
0x34 0x12 (word 0x1234), configured sync word 0x5678. -/
theorem C2_isr_syncword_mismatch_discards_witness :
    (2 : Nat) &&& SX12xx_IRQ_RX_DONE ≠ 0 ∧
    (52 : Nat) + 256 * 18 ≠ 22136 ∧
    SX_DIO_EXTI_IRQHandler 2 52 18 22136 = 0 :=
  ⟨by decide, by decide,
    C2_isr_syncword_mismatch_discards 2 52 18 22136 (by decide) (by decide)⟩

/-- Claim C4, against the code: ChannelOrder::Set(AETR) after Set(ETAR) leaves
the stale ETAR channel_map in place (the AETR case writes nothing), so the
sequence AETR → ETAR → AETR applies the ETAR permutation twice rather than
once.  At channels (10, 20, 30, 40) the code produces (20, 30, 10, 40) while
the claim expects the single ETAR reorder (30, 10, 20, 40). -/
theorem C4_channel_order_stale_map_bug :
    channelOrderSequence ⟨10, 20, 30, 40⟩ = ⟨20, 30, 10, 40⟩ ∧
    etarApplied ⟨10, 20, 30, 40⟩ = ⟨30, 10, 20, 40⟩ ∧
    channelOrderSequence ⟨10, 20, 30, 40⟩ ≠ etarApplied ⟨10, 20, 30, 40⟩ := by
  decide

/-- Claim C5: with diversity, the pre-transmit antenna election returns the
unique Valid antenna when exactly one antenna is Valid; when both statuses
are equal (and a frame was received), it returns the antenna with strictly
higher last RSSI, antenna 2 on a tie; in particular with both Valid at
RSSI -70 dBm (antenna 1) and -65 dBm (antenna 2) it elects antenna 2. -/
theorem C5_antenna_arbiter (rx1 rx2 : RxStatus) (rssi1 rssi2 : Int) :
    (rx1 = RxStatus.valid ∧ rx2 ≠ RxStatus.valid →
       preTransmitElect rx1 rx2 rssi1 rssi2 = some ANTENNA_1) ∧
    (rx2 = RxStatus.valid ∧ rx1 ≠ RxStatus.valid →
       preTransmitElect rx1 rx2 rssi1 rssi2 = some ANTENNA_2) ∧
    (rx1 = rx2 → rx1 ≠ RxStatus.none →
       preTransmitElect rx1 rx2 rssi1 rssi2 =
         some (if rssi1 > rssi2 then ANTENNA_1 else ANTENNA_2)) ∧
    preTransmitElect RxStatus.valid RxStatus.valid (-70) (-65) = some ANTENNA_2 := by
  refine ⟨?_, ?_, ?_, ?_⟩
  · rintro ⟨h1, h2⟩
    subst h1
    cases rx2 <;> simp_all [preTransmitElect, frameReceivedDiv, electAntenna, RxStatus.toNat]
  · rintro ⟨h1, h2⟩
    subst h1
    cases rx1 <;> simp_all [preTransmitElect, frameReceivedDiv, electAntenna, RxStatus.toNat]
  · intro heq hne
    subst heq
    cases rx1 <;> simp_all [preTransmitElect, frameReceivedDiv, electAntenna, RxStatus.toNat]
  · have hlt : ¬((-70 : Int) > (-65 : Int)) := by norm_num
    simp [preTransmitElect, frameReceivedDiv, electAntenna, RxStatus.toNat, hlt]

/-- Witness for C5: each implication exercised at a concrete input — only
antenna 1 Valid; only antenna 2 Valid; both Invalid with equal RSSI (tie
elects antenna 2). -/
theorem C5_antenna_arbiter_witness :
    preTransmitElect RxStatus.valid RxStatus.none (-80) (-90) = some ANTENNA_1 ∧
    preTransmitElect RxStatus.invalid RxStatus.valid (-80) (-90) = some ANTENNA_2 ∧
    preTransmitElect RxStatus.invalid RxStatus.invalid (-60) (-60) = some ANTENNA_2 := by
  refine ⟨(C5_antenna_arbiter RxStatus.valid RxStatus.none (-80) (-90)).1
      ⟨rfl, by decide⟩,
    (C5_antenna_arbiter RxStatus.invalid RxStatus.valid (-80) (-90)).2.1
      ⟨rfl, by decide⟩, ?_⟩
  have h := (C5_antenna_arbiter RxStatus.invalid RxStatus.invalid (-60) (-60)).2.2.1
    rfl (by decide)
  have hlt : ¬((-60 : Int) > (-60 : Int)) := by norm_num
  rwa [if_neg hlt] at h

/-- Claim C10: when the elected antenna carries a CRC-failed frame
(rx_status = RX_STATUS_INVALID), handle_receive writes the sentinel
UINT8_MAX to stats.received_seq_no_last and 0 to stats.received_ack_last,
writes nothing to serial, does not count a valid frame, but still records
stats.last_rx_antenna and counts the frame via txstats.doFrameReceived(). -/
theorem C10_invalid_frame_handling (serialportSome : Bool) (antenna : Nat)
    (frame : RxFrame) (st : Stats) (t : Nat) :
    (handle_receive serialportSome antenna RxStatus.invalid frame st t).stats.received_seq_no_last = 255 ∧
    (handle_receive serialportSome antenna RxStatus.invalid frame st t).stats.received_ack_last = 0 ∧
    (handle_receive serialportSome antenna RxStatus.invalid frame st t).serialOut = [] ∧
    (handle_receive serialportSome antenna RxStatus.invalid frame st t).stats.last_rx_antenna = antenna ∧
    (handle_receive serialportSome antenna RxStatus.invalid frame st t).validFrameCounted = false ∧
    (handle_receive serialportSome antenna RxStatus.invalid frame st t).frameCounted = true := by
  simp [handle_receive]

/-- Claim C9: while not connected, process_transmit_frame with an effective
NORMAL transmit_frame_type consumes no serial/MAVLink bytes and packs an
empty payload (payload_len = 0) into a normal frame; and in general serial
bytes are consumed into outgoing frames only while connected. -/
theorem C9_no_serial_payload_when_not_connected (plen_max : Nat) (sp : Bool)
    (avail prevPayload : List Nat) (prevLen : Nat) :
    ((process_transmit_frame plen_max sp false avail prevPayload prevLen false
        TRANSMIT_FRAME_TYPE_NORMAL).consumed = 0 ∧
     (process_transmit_frame plen_max sp false avail prevPayload prevLen false
        TRANSMIT_FRAME_TYPE_NORMAL).payload_len = 0 ∧
     (process_transmit_frame plen_max sp false avail prevPayload prevLen false
        TRANSMIT_FRAME_TYPE_NORMAL).packedCmd = false) ∧
    (∀ (conn changed : Bool) (t : Nat),
       (process_transmit_frame plen_max sp conn avail prevPayload prevLen
          changed t).consumed ≠ 0 → conn = true) := by
  constructor
  · simp [process_transmit_frame, TRANSMIT_FRAME_TYPE_NORMAL]
  · intro conn changed t h
    cases conn
    · exfalso
      apply h
      simp only [process_transmit_frame]
      split <;> (split <;> simp)
    · rfl

/-- Witness for C9: with the link connected, a serial byte stream of two
bytes is consumed into the frame (consumed = 2 ≠ 0), so the implication of
the theorem is exercised with a satisfied hypothesis. -/
theorem C9_no_serial_payload_when_not_connected_witness :
    ((process_transmit_frame 8 true false [1, 2] [] 0 false
        TRANSMIT_FRAME_TYPE_NORMAL).consumed = 0 ∧
     (process_transmit_frame 8 true false [1, 2] [] 0 false
        TRANSMIT_FRAME_TYPE_NORMAL).payload_len = 0 ∧
     (process_transmit_frame 8 true false [1, 2] [] 0 false
        TRANSMIT_FRAME_TYPE_NORMAL).packedCmd = false) ∧
    (true = true) :=
  ⟨(C9_no_serial_payload_when_not_connected 8 true [1, 2] [] 0).1,
   (C9_no_serial_payload_when_not_connected 8 true [1, 2] [] 0).2 true false
     TRANSMIT_FRAME_TYPE_NORMAL (by decide)⟩

/-- Claim C7: transmit_frame_type is initialized to GET_RX_SETUPDATA at boot;
no write site of the program clears a non-NORMAL value back to NORMAL except
process_received_cmd_rx_frame on a received FRAME_CMD_RX_SETUPDATA or
FRAME_CMD_RX_ACK command frame; and while the slot is non-NORMAL every
outgoing frame is packed with pack_tx_cmd_frame and carries no serial
payload. -/
theorem C7_transmit_frame_type_latched :
    (∀ t : Nat, frameTypeStep FrameTypeWrite.bootInit t
        = TRANSMIT_FRAME_TYPE_CMD_GET_RX_SETUPDATA) ∧
    (∀ (w : FrameTypeWrite) (t : Nat), t ≠ TRANSMIT_FRAME_TYPE_NORMAL →
       frameTypeStep w t = TRANSMIT_FRAME_TYPE_NORMAL →
       ∃ p0, w = FrameTypeWrite.recvCmdFrame p0 ∧
         (p0 = FRAME_CMD_RX_SETUPDATA ∨ p0 = FRAME_CMD_RX_ACK)) ∧
    (∀ (plen_max : Nat) (sp conn : Bool) (avail prevPayload : List Nat)
       (prevLen : Nat) (changed : Bool) (t : Nat),
       t ≠ TRANSMIT_FRAME_TYPE_NORMAL →
       (process_transmit_frame plen_max sp conn avail prevPayload prevLen
          changed t).packedCmd = true ∧
       (process_transmit_frame plen_max sp conn avail prevPayload prevLen
          changed t).consumed = 0) := by
  refine ⟨fun t => rfl, ?_, ?_⟩
  · intro w t ht h
    cases w with
    | bootInit =>
        exact absurd h (by simp [frameTypeStep, TRANSMIT_FRAME_TYPE_CMD_GET_RX_SETUPDATA,
          TRANSMIT_FRAME_TYPE_NORMAL])
    | recvCmdFrame p0 =>
        by_cases h2 : p0 = FRAME_CMD_RX_SETUPDATA
        · exact ⟨p0, rfl, Or.inl h2⟩
        · by_cases h4 : p0 = FRAME_CMD_RX_ACK
          · exact ⟨p0, rfl, Or.inr h4⟩
          · exact absurd (by simpa [frameTypeStep, process_received_cmd_rx_frame, h2, h4] using h) ht
    | transmitLatch changed =>
        have hc : ¬(changed = true ∧ t = TRANSMIT_FRAME_TYPE_NORMAL) :=
          fun hx => ht hx.2
        exact absurd (by simpa [frameTypeStep, hc] using h) ht
    | mbridgeParamStore =>
        exact absurd h (by simp [frameTypeStep, TRANSMIT_FRAME_TYPE_CMD_STORE_RX_PARAMS,
          TRANSMIT_FRAME_TYPE_NORMAL])
  · intro plen_max sp conn avail prevPayload prevLen changed t ht
    have hc : ¬(changed = true ∧ t = TRANSMIT_FRAME_TYPE_NORMAL) :=
      fun hx => ht hx.2
    simp [process_transmit_frame, hc, ht]

/-- Witness for C7: clearing by a received FRAME_CMD_RX_ACK while the slot
holds GET_RX_SETUPDATA, and command packing with the slot non-NORMAL. -/
theorem C7_transmit_frame_type_latched_witness :
    (∃ p0, FrameTypeWrite.recvCmdFrame 4 = FrameTypeWrite.recvCmdFrame p0 ∧
       (p0 = FRAME_CMD_RX_SETUPDATA ∨ p0 = FRAME_CMD_RX_ACK)) ∧
    ((process_transmit_frame 8 true true [1, 2] [] 0 false
        TRANSMIT_FRAME_TYPE_CMD_GET_RX_SETUPDATA).packedCmd = true ∧
     (process_transmit_frame 8 true true [1, 2] [] 0 false
        TRANSMIT_FRAME_TYPE_CMD_GET_RX_SETUPDATA).consumed = 0) :=
  ⟨C7_transmit_frame_type_latched.2.1 (FrameTypeWrite.recvCmdFrame 4)
      TRANSMIT_FRAME_TYPE_CMD_GET_RX_SETUPDATA (by decide) (by decide),
   C7_transmit_frame_type_latched.2.2 8 true true [1, 2] [] 0 false
      TRANSMIT_FRAME_TYPE_CMD_GET_RX_SETUPDATA (by decide)⟩

/-- Helper: n WhileTransmit::Do calls on the quiescent state (no task, not
triggered) leave the state unchanged and execute nothing. -/
theorem whileTransmit_doN_quiescent (k : Nat) :
    WhileTransmit.doN k { tasks := 0, do_cnt := 0 } =
      ({ tasks := 0, do_cnt := 0 }, []) := by
  induction k with
  | zero => rfl
  | succ k ih => simp [WhileTransmit.doN, WhileTransmit.Do, ih]

/-- Helper: splitting a run of m + n WhileTransmit::Do calls. -/
theorem whileTransmit_doN_add (m n : Nat) (s : WhileTransmitSt) :
    WhileTransmit.doN (m + n) s =
      ((WhileTransmit.doN n (WhileTransmit.doN m s).1).1,
       (WhileTransmit.doN m s).2 ++ (WhileTransmit.doN n (WhileTransmit.doN m s).1).2) := by
  induction m generalizing s with
  | zero => simp [WhileTransmit.doN]
  | succ m ih =>
      have hadd : m + 1 + n = (m + n) + 1 := by omega
      rw [hadd]
      simp only [WhileTransmit.doN]
      rw [ih (WhileTransmit.Do s).1]
      simp [List.append_assoc]

/-- Claim C8: WhileTransmit::Do executes at most one task per call, executes
nothing unless this call counts do_cnt down to zero, and for a latched
STORE_PARAMS task with the trigger delay of 5: the first four Do calls after
Trigger execute nothing and every run of at least five Do calls executes the
task exactly once. -/
theorem C8_while_transmit_deferred :
    (∀ s : WhileTransmitSt, (WhileTransmit.Do s).2.length ≤ 1) ∧
    (∀ s : WhileTransmitSt, s.do_cnt ≠ 1 → (WhileTransmit.Do s).2 = []) ∧
    ((WhileTransmit.doN 4 (WhileTransmit.Trigger
        (WhileTransmit.SetTask WhileTransmit.Init WHILE_TASK_STORE_PARAMS))).2 = [] ∧
     ∀ k, (WhileTransmit.doN (5 + k) (WhileTransmit.Trigger
        (WhileTransmit.SetTask WhileTransmit.Init WHILE_TASK_STORE_PARAMS))).2
          = [WHILE_TASK_STORE_PARAMS]) := by
  refine ⟨?_, ?_, by decide, ?_⟩
  · intro s
    simp only [WhileTransmit.Do, WhileTransmit.handle_tasks]
    split
    · simp
    · split
      · simp
      · split
        · simp
        · split <;> simp
  · intro s h
    simp only [WhileTransmit.Do, WhileTransmit.handle_tasks]
    split
    · rfl
    · split
      · rfl
      · omega
  · intro k
    rw [whileTransmit_doN_add 5 k]
    have h5 : WhileTransmit.doN 5 (WhileTransmit.Trigger
        (WhileTransmit.SetTask WhileTransmit.Init WHILE_TASK_STORE_PARAMS))
        = ({ tasks := 0, do_cnt := 0 }, [WHILE_TASK_STORE_PARAMS]) := by decide
    rw [h5]
    simp [whileTransmit_doN_quiescent]

/-- Witness for C8: the at-most-one and not-before-countdown parts at
concrete states (a pending task with do_cnt = 3 executes nothing). -/
theorem C8_while_transmit_deferred_witness :
    (WhileTransmit.Do { tasks := 1, do_cnt := 1 }).2.length ≤ 1 ∧
    (WhileTransmit.Do { tasks := 1, do_cnt := 3 }).2 = [] ∧
    (WhileTransmit.doN (5 + 2) (WhileTransmit.Trigger
        (WhileTransmit.SetTask WhileTransmit.Init WHILE_TASK_STORE_PARAMS))).2
      = [WHILE_TASK_STORE_PARAMS] :=
  ⟨C8_while_transmit_deferred.1 { tasks := 1, do_cnt := 1 },
   C8_while_transmit_deferred.2.1 { tasks := 1, do_cnt := 3 } (by decide),
   C8_while_transmit_deferred.2.2.2 2⟩

/-- Claim C1, against the code: with K = CONNECT_SYNC_CNT = 2, two
consecutive pre-transmit steps with valid_frame_received from Listen do NOT
reach Connected (the first step only enters Sync with the counter at 0, the
second counts to 1 < 2), refuting "Connected at the end of cycle 2". -/
theorem C1_connection_counterexample :
    (connectionPreTransmit 2 50 true (connectionPreTransmit 2 50 true
        { connect_state := ConnectState.listen, connect_sync_cnt := 0,
          connect_tmo_cnt := 0 })).connect_state ≠ ConnectState.connected := by
  decide

/-- Helper: while syncing, each valid pre-transmit step increments
connect_sync_cnt and stays in Sync as long as the counter is below K. -/
theorem connectionPreTransmit_sync_iter (K TMO : Nat) (hK : K ≤ 255) :
    ∀ j, j < K →
      (connectionPreTransmit K TMO true)^[j]
          { connect_state := ConnectState.sync, connect_sync_cnt := 0,
            connect_tmo_cnt := TMO }
        = { connect_state := ConnectState.sync, connect_sync_cnt := j,
            connect_tmo_cnt := TMO } := by
  intro j
  induction j with
  | zero => intro h0; simp
  | succ j ih =>
      intro hj
      rw [Function.iterate_succ_apply', ih (Nat.lt_of_succ_lt hj)]
      have hmod : (j + 1) % 256 = j + 1 := Nat.mod_eq_of_lt (by omega)
      have hlt : ¬ K ≤ j + 1 := by omega
      simp [connectionPreTransmit, hmod, hlt]

/-- Helper: n system ticks from Connected only count connect_tmo_cnt down
(saturating at 0). -/
theorem connectionSysTick_iter (c t : Nat) :
    ∀ n, (connectionSysTick)^[n]
        { connect_state := ConnectState.connected, connect_sync_cnt := c,
          connect_tmo_cnt := t }
      = { connect_state := ConnectState.connected, connect_sync_cnt := c,
          connect_tmo_cnt := t - n } := by
  intro n
  induction n with
  | zero => simp
  | succ n ih =>
      rw [Function.iterate_succ_apply', ih]
      simp only [connectionSysTick]
      split <;> (simp; omega)

/-- Claim C1 as amended: from Listen, K + 1 (not K) consecutive pre-transmit
steps with valid_frame_received reach Connected (for 1 ≤ K ≤ 255 and a
positive timeout reload); and from Connected, once the timeout counter has
expired with no valid reception, the next pre-transmit step returns to
Listen. -/
theorem C1_connection_sync_timeout_amended (K TMO : Nat)
    (hK1 : 1 ≤ K) (hK2 : K ≤ 255) (hTMO : 0 < TMO)
    (c0 t0 c t n : Nat) (hn : t ≤ n) :
    ((connectionPreTransmit K TMO true)^[K + 1]
        { connect_state := ConnectState.listen, connect_sync_cnt := c0,
          connect_tmo_cnt := t0 }).connect_state = ConnectState.connected ∧
    (connectionPreTransmit K TMO false ((connectionSysTick)^[n]
        { connect_state := ConnectState.connected, connect_sync_cnt := c,
          connect_tmo_cnt := t })).connect_state = ConnectState.listen := by
  constructor
  · rw [Function.iterate_succ_apply]
    have h1 : connectionPreTransmit K TMO true
        { connect_state := ConnectState.listen, connect_sync_cnt := c0,
          connect_tmo_cnt := t0 }
        = { connect_state := ConnectState.sync, connect_sync_cnt := 0,
            connect_tmo_cnt := TMO } := by
      simp [connectionPreTransmit]
    rw [h1]
    obtain ⟨K1, rfl⟩ : ∃ K1, K = K1 + 1 := ⟨K - 1, by omega⟩
    rw [Function.iterate_succ_apply',
        connectionPreTransmit_sync_iter (K1 + 1) TMO hK2 K1 (by omega)]
    have hmod : (K1 + 1) % 256 = K1 + 1 := Nat.mod_eq_of_lt (by omega)
    have hTMO2 : TMO ≠ 0 := by omega
    simp [connectionPreTransmit, hmod, hTMO2]
  · rw [connectionSysTick_iter]
    have ht0 : t - n = 0 := by omega
    rw [ht0]
    simp [connectionPreTransmit]

/-- Witness for the amended C1: with K = 2 and TMO = 50, three valid steps
from Listen reach Connected, and from Connected with 3 ticks left, 5 ticks
and one non-valid pre-transmit step return to Listen. -/
theorem C1_connection_sync_timeout_amended_witness :
    ((connectionPreTransmit 2 50 true)^[3]
        { connect_state := ConnectState.listen, connect_sync_cnt := 0,
          connect_tmo_cnt := 0 }).connect_state = ConnectState.connected ∧
    (connectionPreTransmit 2 50 false ((connectionSysTick)^[5]
        { connect_state := ConnectState.connected, connect_sync_cnt := 7,
          connect_tmo_cnt := 3 })).connect_state = ConnectState.listen :=
  C1_connection_sync_timeout_amended 2 50 (by decide) (by decide) (by decide)
    0 0 7 3 5 (by decide)

/-- Claim C3: every execution of the LINK_STATE_TRANSMIT branch increments
stats.transmit_seq_no by exactly 1 (8-bit) and advances fhss.curr_i by
exactly 1 mod FhssNum; and a full loop iteration whose transmission ends in
a TX timeout (timeout cause on antenna 1) still performs both increments
exactly once, with the link FSM back at Idle and both rx statuses None. -/
theorem C3_transmit_increments_once (s : LinkSt) (r1 r2 : RxStatus)
    (h : s.link_state = LinkState.transmit) :
    ((sxSwitch s).1.transmit_seq_no = (s.transmit_seq_no + 1) % 256 ∧
     (sxSwitch s).1.fhss_curr_i = (s.fhss_curr_i + 1) % s.fhss_num) ∧
    ((linkIterStep SX12xx_IRQ_TIMEOUT 0 r1 r2 false s).1.transmit_seq_no
        = (s.transmit_seq_no + 1) % 256 ∧
     (linkIterStep SX12xx_IRQ_TIMEOUT 0 r1 r2 false s).1.fhss_curr_i
        = (s.fhss_curr_i + 1) % s.fhss_num ∧
     (linkIterStep SX12xx_IRQ_TIMEOUT 0 r1 r2 false s).1.link_state
        = LinkState.idle ∧
     (linkIterStep SX12xx_IRQ_TIMEOUT 0 r1 r2 false s).1.link_rx1_status
        = RxStatus.none ∧
     (linkIterStep SX12xx_IRQ_TIMEOUT 0 r1 r2 false s).1.link_rx2_status
        = RxStatus.none) := by
  obtain ⟨ls, rx1, rx2, seq, ci, num, wt, hl⟩ := s
  simp only at h
  subst h
  simp [linkIterStep, sxSwitch, fhssHopToNext, do_transmit, irqHandleAnt1,
    irqHandleAnt2, SX12xx_IRQ_TIMEOUT, SX12xx_IRQ_TX_DONE, SX12xx_IRQ_RX_DONE]

/-- Witness for C3: a concrete transmit-state with seq_no 5 and FHSS index 3
of 12 channels. -/
theorem C3_transmit_increments_once_witness :
    ((sxSwitch sampleTransmitSt).1.transmit_seq_no = (5 + 1) % 256 ∧
     (sxSwitch sampleTransmitSt).1.fhss_curr_i = (3 + 1) % 12) ∧
    ((linkIterStep SX12xx_IRQ_TIMEOUT 0 RxStatus.none RxStatus.none false
        sampleTransmitSt).1.transmit_seq_no = (5 + 1) % 256 ∧
     (linkIterStep SX12xx_IRQ_TIMEOUT 0 RxStatus.none RxStatus.none false
        sampleTransmitSt).1.fhss_curr_i = (3 + 1) % 12 ∧
     (linkIterStep SX12xx_IRQ_TIMEOUT 0 RxStatus.none RxStatus.none false
        sampleTransmitSt).1.link_state = LinkState.idle ∧
     (linkIterStep SX12xx_IRQ_TIMEOUT 0 RxStatus.none RxStatus.none false
        sampleTransmitSt).1.link_rx1_status = RxStatus.none ∧
     (linkIterStep SX12xx_IRQ_TIMEOUT 0 RxStatus.none RxStatus.none false
        sampleTransmitSt).1.link_rx2_status = RxStatus.none) :=
  C3_transmit_increments_once sampleTransmitSt RxStatus.none RxStatus.none rfl

/-- Claim C6, against the code: in TransmitWait with both TX_DONE and the
timeout cause set in irq_status, the TX_DONE branch consumes the status
first, so the handler moves to Receive, not Idle, although the timeout bit
was set — refuting the claim for every step with the timeout bit set. -/
theorem C6_timeout_bit_counterexample :
    (SX12xx_IRQ_TX_DONE ||| SX12xx_IRQ_TIMEOUT) &&& SX12xx_IRQ_TIMEOUT ≠ 0 ∧
    (irqHandleAnt1 (SX12xx_IRQ_TX_DONE ||| SX12xx_IRQ_TIMEOUT) RxStatus.none
        sampleTransmitWaitSt).link_state ≠ LinkState.idle := by
  decide

/-- Claim C6 as amended: whenever the timeout cause bit is set in the sampled
irq_status and the done-bit branch of the current wait state does not consume
the status first (no TX_DONE in TransmitWait, no RX_DONE in ReceiveWait), the
handler puts the link FSM in Idle and clears both rx statuses to None; and
from Idle, a loop iteration without a pre-transmit event hands no frame to
the modem and stays in Idle, so the transmission is not retried within the
frame period. -/
theorem C6_timeout_idle_amended (irq : Nat) (r1 : RxStatus) (s : LinkSt)
    (htmo : irq &&& SX12xx_IRQ_TIMEOUT ≠ 0)
    (h1 : ¬(s.link_state = LinkState.transmitWait ∧ irq &&& SX12xx_IRQ_TX_DONE ≠ 0))
    (h2 : ¬(s.link_state = LinkState.receiveWait ∧ irq &&& SX12xx_IRQ_RX_DONE ≠ 0)) :
    ((irqHandleAnt1 irq r1 s).link_state = LinkState.idle ∧
     (irqHandleAnt1 irq r1 s).link_rx1_status = RxStatus.none ∧
     (irqHandleAnt1 irq r1 s).link_rx2_status = RxStatus.none) ∧
    (∀ (irqb irq2b : Nat) (r1b r2b : RxStatus) (sb : LinkSt),
       sb.link_state = LinkState.idle →
       (linkIterStep irqb irq2b r1b r2b false sb).2 = false ∧
       (linkIterStep irqb irq2b r1b r2b false sb).1.link_state
         = LinkState.idle) := by
  constructor
  · have hne : irq ≠ 0 := by
      intro h0
      rw [h0] at htmo
      exact htmo (by decide)
    by_cases hw : s.link_state = LinkState.transmitWait
    · have hbit : irq &&& SX12xx_IRQ_TX_DONE = 0 := by
        by_contra hb
        exact h1 ⟨hw, hb⟩
      simp [irqHandleAnt1, hne, hw, hbit, htmo]
    · by_cases hr : s.link_state = LinkState.receiveWait
      · have hbit : irq &&& SX12xx_IRQ_RX_DONE = 0 := by
          by_contra hb
          exact h2 ⟨hr, hb⟩
        simp [irqHandleAnt1, hne, hw, hr, hbit, htmo]
      · simp [irqHandleAnt1, hne, hw, hr, htmo]
  · intro irqb irq2b r1b r2b sb hls
    have hsw : sxSwitch sb = (sb, false) := by
      obtain ⟨ls, rx1, rx2, seq, ci, num, wt, hl⟩ := sb
      simp only at hls
      subst hls
      rfl
    refine ⟨?_, ?_⟩
    · simp [linkIterStep, hsw]
    · simp only [linkIterStep, hsw, Bool.false_eq_true, if_false]
      exact irqHandleAnt2_idle irq2b r2b _ (irqHandleAnt1_idle irqb r1b sb hls)

/-- Witness for the amended C6: a pure timeout cause in ReceiveWait, and a
subsequent quiet iteration from Idle. -/
theorem C6_timeout_idle_amended_witness :
    ((irqHandleAnt1 SX12xx_IRQ_TIMEOUT RxStatus.none
        sampleReceiveWaitSt).link_state = LinkState.idle ∧
     (irqHandleAnt1 SX12xx_IRQ_TIMEOUT RxStatus.none
        sampleReceiveWaitSt).link_rx1_status = RxStatus.none ∧
     (irqHandleAnt1 SX12xx_IRQ_TIMEOUT RxStatus.none
        sampleReceiveWaitSt).link_rx2_status = RxStatus.none) ∧
    ((linkIterStep 2 0 RxStatus.none RxStatus.none false sampleIdleSt).2 = false ∧
     (linkIterStep 2 0 RxStatus.none RxStatus.none false
        sampleIdleSt).1.link_state = LinkState.idle) :=
  ⟨(C6_timeout_idle_amended SX12xx_IRQ_TIMEOUT RxStatus.none sampleReceiveWaitSt
      (by decide) (by decide) (by decide)).1,
   (C6_timeout_idle_amended SX12xx_IRQ_TIMEOUT RxStatus.none sampleReceiveWaitSt
      (by decide) (by decide) (by decide)).2 2 0 RxStatus.none RxStatus.none
     sampleIdleSt rfl⟩

end MLRS
